import Mathlib

/-!
Verification of tk-multi-reviewsubmission
(src/python/tk_multi_reviewsubmission/renderer.py).

The module drives the Nuke compositing host: it builds a node graph
(read, burn-in/slate, scale, write), renders it, and deletes it.  We embed
the renderer shallowly as trace-producing functions: every call into the
host API (node creation, knob assignment, input wiring, execution,
deletion) becomes an `Event`, and a run of `render_movie_in_nuke` becomes
a `List Event` computed from an environment that carries the app settings,
the toolkit context, the codec hook result and the platform facts the code
reads.  A second function models the run in which a primitive inside the
try block raises, so the try/finally semantics can be stated.
-/

namespace ReviewSubmission

/-- A knob value as passed to the host: a string, an int, or a bool. -/
inductive KVal where
  | str (s : String)
  | int (n : Int)
  | bool (b : Bool)
deriving DecidableEq

/-- References to the nodes the renderer touches.  `burnSub n` is the node
named `n` inside the pasted burn-in group (found via `burn_in.node(n)`). -/
inductive NodeRef where
  | group
  | read
  | burnIn
  | burnSub (name : String)
  | scale
  | output
deriving DecidableEq

/-- One call into the host node-graph API, in program order. -/
inductive Event where
  | createGroup
  | groupBegin
  | groupEnd
  | createRead (name file : String)
  | nodePaste (file : String)
  | createReformat
  | createWrite (fileType : Option KVal)
  | setKnob (node : NodeRef) (knob : String) (value : KVal)
  | setInput (node : NodeRef) (idx : Nat) (src : NodeRef)
  | setExpression (node : NodeRef) (knob : String) (e : String)
  | clearAnimated (node : NodeRef) (knob : String)
  | ensureFolderExists (folder : String)
  | logInfo (msg : String)
  | executeMultiple (nodes : List NodeRef) (ranges : List (Int × Int × Int))
      (views : List String)
  | deleteNode (node : NodeRef)
deriving DecidableEq

/-- The app settings read through `self.__app.get_setting`. -/
structure Settings where
  slate_logo : String
  version_number_padding : Nat
  add_slate : Bool
  add_burn_ins : Bool
  resize_movie : Bool

/-- The toolkit context `self.__app.context`: `task` and `step` hold the
dictionary entry `["name"]` when the context has one, `none` otherwise
(`ctx.task` is `None` or a populated dictionary in the source). -/
structure Ctx where
  project_name : String
  entity_type : String
  entity_name : String
  task : Option String
  step : Option String

/-- Everything the renderer reads from its surroundings: settings, context,
the codec hook result `wn_settings` (association list in dictionary
iteration order, keys distinct in a real dictionary), the root node proxy
flag, `nuke.views()`, the bundle disk location, `os.sep`, the platform
test, and an oracle for `os.path.isfile`. -/
structure Env where
  settings : Settings
  ctx : Ctx
  wn_settings : List (String × KVal)
  is_proxy : Bool
  views : List String
  disk_location : String
  os_sep : Char
  is_win32 : Bool
  isfile : String → Bool

/-- `Renderer._fix_path`: `path.replace(os.sep, "/")`.  `os.sep` is a
single character, so the replacement is a character map. -/
def fix_path (sep : Char) (path : String) : String :=
  String.mk (path.data.map (fun c => if c = sep then '/' else c))

/-- `os.path.join a b` for the relative second arguments used here:
`a` then the separator then `b`. -/
def joinPath (sep : Char) (a b : String) : String :=
  a ++ String.singleton sep ++ b

/-- `os.path.dirname` for the forward-slash paths used here: everything
before the final slash component. -/
def dirname (p : String) : String :=
  String.intercalate "/" (p.splitOn "/").dropLast

/-- Alignment in a Python format specification: `<`, `>` or `^`. -/
inductive PyAlign where
  | lt
  | gt
  | caret
deriving DecidableEq

/-- Python `str.format` fill/align/width handling: the string is padded
with the fill character up to the minimum width; `>` pads on the left,
`<` on the right, `^` on both sides. -/
def pyFormatAligned (fill : Char) (align : PyAlign) (width : Nat)
    (s : String) : String :=
  let padLen := width - s.length
  match align with
  | PyAlign.gt => String.mk (List.replicate padLen fill) ++ s
  | PyAlign.lt => s ++ String.mk (List.replicate padLen fill)
  | PyAlign.caret =>
      String.mk (List.replicate (padLen / 2) fill) ++ s ++
        String.mk (List.replicate (padLen - padLen / 2) fill)

/-- The version string built at renderer.py:146: the format call on the
template string with ver and pad substituted, fill `0`, align `>`,
width pad. -/
def version_str (ver pad : Nat) : String :=
  "v" ++ pyFormatAligned '0' PyAlign.gt pad (toString ver)

/-- Python `str.capitalize`: first character upper-cased, the rest
lower-cased. -/
def pyCapitalize (s : String) : String :=
  match s.data with
  | [] => ""
  | c :: cs => String.mk (Char.toUpper c :: cs.map Char.toLower)

/-- Python `dict.get`: the value at the first matching key, if any. -/
def lookupKnob (l : List (String × KVal)) (k : String) : Option KVal :=
  match l with
  | [] => none
  | kv :: rest => if kv.1 = k then some kv.2 else lookupKnob rest k

/-- `self._logo` after `Renderer.__init__`: the `slate_logo` setting,
emptied when `os.path.isfile` rejects it, then slash-fixed on win32. -/
def rendererLogo (env : Env) : String :=
  let logo := env.settings.slate_logo
  let logo := if env.isfile logo then logo else ""
  if env.is_win32 then fix_path env.os_sep logo else logo

/-- `self._font` after `Renderer.__init__`. -/
def rendererFont (env : Env) : String :=
  let f := joinPath env.os_sep (joinPath env.os_sep env.disk_location "resources")
    "liberationsans_regular.ttf"
  if env.is_win32 then fix_path env.os_sep f else f

/-- `self._burnin_nk` after `Renderer.__init__`. -/
def rendererBurninNk (env : Env) : String :=
  let f := joinPath env.os_sep (joinPath env.os_sep env.disk_location "resources")
    "burnin.nk"
  if env.is_win32 then fix_path env.os_sep f else f

/-- The bottom-left burn-in label (renderer.py:148-153): task name plus
version string when the context has a task, else step name plus version
string when it has a step, else the bare version string. -/
def version_label (env : Env) (version : Nat) : String :=
  let vstr := version_str version env.settings.version_number_padding
  match env.ctx.task with
  | some t => t ++ ", " ++ vstr
  | none =>
    match env.ctx.step with
    | some s => s ++ ", " ++ vstr
    | none => vstr

/-- The slate message (renderer.py:160-170), built by successive
concatenation exactly as the source does. -/
def slate_str (env : Env) (name : String) (version : Nat)
    (first_frame last_frame : Int) : String :=
  let vstr := version_str version env.settings.version_number_padding
  "Project: " ++ env.ctx.project_name ++ "\n" ++
  (env.ctx.entity_type ++ ": " ++ env.ctx.entity_name ++ "\n") ++
  ("Name: " ++ pyCapitalize name ++ "\n") ++
  ("Version: " ++ vstr ++ "\n") ++
  (match env.ctx.task with
   | some t => "Task: " ++ t ++ "\n"
   | none =>
     match env.ctx.step with
     | some s => "Step: " ++ s ++ "\n"
     | none => "") ++
  ("Frames: " ++ toString first_frame ++ " - " ++ toString last_frame ++ "\n")

/-- The trace of `Renderer.__create_slate_burn_ins` (renderer.py:117-189),
in source order: paste the burn-in group, set the five fonts, the logo,
the three burn-in messages and the slate message, then the chooser-knob
block when `add_slate` is off and the four disable knobs when
`add_burn_ins` is off. -/
def burnTrace (env : Env) (name : String) (version : Nat)
    (first_frame last_frame : Int) : List Event :=
  let font := rendererFont env
  [Event.nodePaste (rendererBurninNk env),
   Event.setKnob (NodeRef.burnSub "top_left_text") "font" (KVal.str font),
   Event.setKnob (NodeRef.burnSub "top_right_text") "font" (KVal.str font),
   Event.setKnob (NodeRef.burnSub "bottom_left_text") "font" (KVal.str font),
   Event.setKnob (NodeRef.burnSub "framecounter") "font" (KVal.str font),
   Event.setKnob (NodeRef.burnSub "slate_info") "font" (KVal.str font),
   Event.setKnob (NodeRef.burnSub "logo") "file" (KVal.str (rendererLogo env)),
   Event.setKnob (NodeRef.burnSub "top_left_text") "message"
     (KVal.str env.ctx.project_name),
   Event.setKnob (NodeRef.burnSub "top_right_text") "message"
     (KVal.str env.ctx.entity_name),
   Event.setKnob (NodeRef.burnSub "bottom_left_text") "message"
     (KVal.str (version_label env version)),
   Event.setKnob (NodeRef.burnSub "slate_info") "message"
     (KVal.str (slate_str env name version first_frame last_frame))] ++
  (if env.settings.add_slate then []
   else
     [Event.setExpression (NodeRef.burnSub "slate_or_burnin_chooser") "which" "",
      Event.clearAnimated (NodeRef.burnSub "slate_or_burnin_chooser") "which",
      Event.setKnob (NodeRef.burnSub "slate_or_burnin_chooser") "which"
        (KVal.int 1)]) ++
  (if env.settings.add_burn_ins then []
   else
     [Event.setKnob (NodeRef.burnSub "top_left_text") "disable" (KVal.bool true),
      Event.setKnob (NodeRef.burnSub "top_right_text") "disable" (KVal.bool true),
      Event.setKnob (NodeRef.burnSub "bottom_left_text") "disable" (KVal.bool true),
      Event.setKnob (NodeRef.burnSub "framecounter") "disable" (KVal.bool true)])

/-- The trace of `Renderer.__create_scale_node` (renderer.py:191-203). -/
def scaleTrace (width height : Int) : List Event :=
  [Event.createReformat,
   Event.setKnob NodeRef.scale "type" (KVal.str "to box"),
   Event.setKnob NodeRef.scale "box_width" (KVal.int width),
   Event.setKnob NodeRef.scale "box_height" (KVal.int height),
   Event.setKnob NodeRef.scale "resize" (KVal.str "fit"),
   Event.setKnob NodeRef.scale "box_fixed" (KVal.bool true),
   Event.setKnob NodeRef.scale "center" (KVal.bool true),
   Event.setKnob NodeRef.scale "black_outside" (KVal.bool true)]

/-- The knob assignments of the hook loop at renderer.py:218-220: one
`setValue` on the Write node per hook entry whose key is not
`file_type`, in iteration order. -/
def hookKnobEvents (l : List (String × KVal)) : List Event :=
  l.filterMap (fun kv =>
    if kv.1 = "file_type" then none
    else some (Event.setKnob NodeRef.output kv.1 kv.2))

/-- The trace of `Renderer.__create_output_node` (renderer.py:205-236):
create the Write node with the hook file type, apply the remaining hook
knobs, then set the slash-fixed path on `proxy` in proxy mode (with a log
line) and on `file` otherwise. -/
def outputTrace (env : Env) (path : String) : List Event :=
  Event.createWrite (lookupKnob env.wn_settings "file_type") ::
  hookKnobEvents env.wn_settings ++
  (if env.is_proxy then
     [Event.logInfo "Proxy mode is ON. Rendering proxy.",
      Event.setKnob NodeRef.output "proxy" (KVal.str (fix_path env.os_sep path))]
   else
     [Event.setKnob NodeRef.output "file" (KVal.str (fix_path env.os_sep path))])

/-- The body of the try block of `render_movie_in_nuke`
(renderer.py:77-98), in source order: read node, burn-in group wired to
the read, scale node wired to the burn-in (disabled when `resize_movie`
is off), output node wired to the scale. -/
def tryBody (env : Env) (path output_path : String) (width height : Int)
    (first_frame last_frame : Int) (version : Nat) (name : String)
    (color_space : String) : List Event :=
  [Event.createRead "source" (fix_path env.os_sep path),
   Event.setKnob NodeRef.read "on_error" (KVal.str "black"),
   Event.setKnob NodeRef.read "first" (KVal.int first_frame),
   Event.setKnob NodeRef.read "last" (KVal.int last_frame)] ++
  (if color_space = "" then []
   else [Event.setKnob NodeRef.read "colorspace" (KVal.str color_space)]) ++
  burnTrace env name version first_frame last_frame ++
  [Event.setInput NodeRef.burnIn 0 NodeRef.read] ++
  scaleTrace width height ++
  [Event.setInput NodeRef.scale 0 NodeRef.burnIn] ++
  (if env.settings.resize_movie then []
   else [Event.setKnob NodeRef.scale "disable" (KVal.bool true)]) ++
  outputTrace env output_path ++
  [Event.setInput NodeRef.output 0 NodeRef.scale]

/-- The trace of a non-exceptional run of `Renderer.render_movie_in_nuke`
(renderer.py:51-115): group creation, the try body between `begin` and
`end`, folder creation, one `executeMultiple` over the slate-extended
frame range on the first view, and group deletion. -/
def render_movie_in_nuke (env : Env) (path output_path : String)
    (width height : Int) (first_frame last_frame : Int) (version : Nat)
    (name : String) (color_space : String) : List Event :=
  [Event.createGroup, Event.groupBegin] ++
  tryBody env path output_path width height first_frame last_frame version
    name color_space ++
  [Event.groupEnd,
   Event.ensureFolderExists (dirname output_path),
   Event.executeMultiple [NodeRef.output] [(first_frame - 1, last_frame, 1)]
     [env.views.headI],
   Event.deleteNode NodeRef.group]

/-- The trace of a run of `Renderer.render_movie_in_nuke` in which the
primitive numbered `k` (zero-based) inside the try block raises: the
events before it happen, the finally clause runs `group.end()`, and the
exception propagates, so nothing after the try statement runs. -/
def render_movie_in_nuke_raising (env : Env) (path output_path : String)
    (width height : Int) (first_frame last_frame : Int) (version : Nat)
    (name : String) (color_space : String) (k : Nat) : List Event :=
  [Event.createGroup, Event.groupBegin] ++
  (tryBody env path output_path width height first_frame last_frame version
    name color_space).take k ++
  [Event.groupEnd]

/-- Whether an event wires a node input. -/
def isSetInput (e : Event) : Bool :=
  match e with
  | Event.setInput _ _ _ => true
  | _ => false

/-- Whether an event is an execution call. -/
def isExecute (e : Event) : Bool :=
  match e with
  | Event.executeMultiple _ _ _ => true
  | _ => false

/-- The node and knob an event writes to, when it is a knob write
(a value set, an expression set, or an animation clear). -/
def knobTarget (e : Event) : Option (NodeRef × String) :=
  match e with
  | Event.setKnob n k _ => some (n, k)
  | Event.setExpression n k _ => some (n, k)
  | Event.clearAnimated n k => some (n, k)
  | _ => none

/-- Whether an event writes to the `which` knob of the
`slate_or_burnin_chooser` node inside the burn-in group. -/
def touchesChooserWhich (e : Event) : Bool :=
  knobTarget e == some (NodeRef.burnSub "slate_or_burnin_chooser", "which")

/-- Whether an event sets the `file` or the `proxy` knob of the Write
output node. -/
def isPathKnobSet (e : Event) : Bool :=
  match e with
  | Event.setKnob NodeRef.output k _ => k == "file" || k == "proxy"
  | _ => false

/-- The version string as the specification describes it: the letter v
followed by the decimal digits of ver, left-padded with 0 characters to a
minimum width of pad. -/
def specVersionStr (ver pad : Nat) : String :=
  let digits := toString ver
  "v" ++ (if digits.length < pad
          then String.mk (List.replicate (pad - digits.length) '0')
          else "") ++ digits

/-- The slate message as the specification describes it: one concatenation
of the project line, the entity line, the capitalized name line, the
version line, then a task line when the context has a task, else a step
line when it has a step, then the frames line. -/
def specSlateStr (env : Env) (name : String) (version : Nat)
    (first_frame last_frame : Int) : String :=
  "Project: " ++ env.ctx.project_name ++ "\n" ++
  env.ctx.entity_type ++ ": " ++ env.ctx.entity_name ++ "\n" ++
  "Name: " ++ pyCapitalize name ++ "\n" ++
  "Version: " ++ specVersionStr version env.settings.version_number_padding ++
  "\n" ++
  (if h : env.ctx.task.isSome then "Task: " ++ env.ctx.task.get h ++ "\n"
   else if h : env.ctx.step.isSome then "Step: " ++ env.ctx.step.get h ++ "\n"
   else "") ++
  "Frames: " ++ toString first_frame ++ " - " ++ toString last_frame ++ "\n"

/-- A concrete environment used to instantiate theorems with hypotheses:
no proxy mode, one view, a context with a task and a step, a codec hook
returning a file type and one extra knob, and a filesystem oracle on
which no path is a file. -/
def sampleEnv : Env :=
  { settings :=
      { slate_logo := ""
        version_number_padding := 3
        add_slate := true
        add_burn_ins := true
        resize_movie := true }
    ctx :=
      { project_name := "Proj"
        entity_type := "Shot"
        entity_name := "sh010"
        task := some "Comp"
        step := some "comp" }
    wn_settings := [("file_type", KVal.str "mov"), ("codec", KVal.str "jpeg")]
    is_proxy := false
    views := ["main"]
    disk_location := "/app"
    os_sep := '/'
    is_win32 := false
    isfile := fun _ => false }

theorem executeMultiple_not_mem_tryBody (env : Env)
    (path output_path : String) (width height : Int) (ff lf : Int)
    (version : Nat) (name cs : String) (ns : List NodeRef)
    (rs : List (Int × Int × Int)) (vs : List String) :
    Event.executeMultiple ns rs vs ∉
      tryBody env path output_path width height ff lf version name cs := by
  simp [tryBody, burnTrace, scaleTrace, outputTrace, hookKnobEvents,
    List.mem_filterMap]
  split_ifs <;> simp

theorem deleteNode_not_mem_tryBody (env : Env) (path output_path : String)
    (width height : Int) (ff lf : Int) (version : Nat) (name cs : String)
    (n : NodeRef) :
    Event.deleteNode n ∉
      tryBody env path output_path width height ff lf version name cs := by
  simp [tryBody, burnTrace, scaleTrace, outputTrace, hookKnobEvents,
    List.mem_filterMap]
  split_ifs <;> simp

theorem hookKnobEvents_filter_eq_nil (l : List (String × KVal))
    (q : Event → Bool)
    (h : ∀ k v, q (Event.setKnob NodeRef.output k v) = false) :
    (hookKnobEvents l).filter q = [] := by
  induction l with
  | nil => rfl
  | cons kv rest ih =>
    unfold hookKnobEvents at ih ⊢
    by_cases hk : kv.1 = "file_type" <;>
      simp [List.filterMap_cons, hk, List.filter_cons, h, ih]

theorem isExecute_eq_true_iff (e : Event) :
    isExecute e = true ↔ ∃ ns rs vs, e = Event.executeMultiple ns rs vs := by
  cases e <;> simp [isExecute]

theorem tryBody_filter_isExecute (env : Env) (path output_path : String)
    (width height : Int) (ff lf : Int) (version : Nat) (name cs : String) :
    (tryBody env path output_path width height ff lf version name cs).filter
      isExecute = [] := by
  rw [List.filter_eq_nil_iff]
  intro e he
  rw [Bool.not_eq_true, ← Bool.not_eq_true, isExecute_eq_true_iff]
  rintro ⟨ns, rs, vs, rfl⟩
  exact executeMultiple_not_mem_tryBody env path output_path width height ff lf
    version name cs ns rs vs he

theorem version_str_eq_spec (ver pad : Nat) :
    version_str ver pad = specVersionStr ver pad := by
  unfold version_str specVersionStr pyFormatAligned
  simp only [String.append_assoc]
  split_ifs with h
  · rfl
  · have h0 : pad - (toString ver).length = 0 := by omega
    rw [h0]
    rfl

theorem hookKnobEvents_filter_isPathKnobSet (l : List (String × KVal))
    (h : ∀ kv ∈ l, kv.1 ≠ "file" ∧ kv.1 ≠ "proxy") :
    (hookKnobEvents l).filter isPathKnobSet = [] := by
  induction l with
  | nil => rfl
  | cons kv rest ih =>
    have hkv := h kv (List.mem_cons_self kv rest)
    have hr := ih (fun a ha => h a (List.mem_cons_of_mem kv ha))
    unfold hookKnobEvents at hr ⊢
    by_cases hk : kv.1 = "file_type" <;>
      simp [List.filterMap_cons, hk, List.filter_cons, isPathKnobSet, hr,
        hkv.1, hkv.2]

/-- C1: on every call to render_movie_in_nuke the node graph is wired
read to burn-in to scale to write: the Read node is created with the
name source, and the only input wirings in the trace are, in order, the
burn-in group input 0 to the read, the Reformat input 0 to the burn-in,
and the Write input 0 to the Reformat. -/
theorem c1_node_graph_wiring_order (env : Env) (path output_path : String)
    (width height : Int) (ff lf : Int) (version : Nat) (name cs : String) :
    Event.createRead "source" (fix_path env.os_sep path) ∈
      render_movie_in_nuke env path output_path width height ff lf version
        name cs ∧
    (render_movie_in_nuke env path output_path width height ff lf version
      name cs).filter isSetInput =
      [Event.setInput NodeRef.burnIn 0 NodeRef.read,
       Event.setInput NodeRef.scale 0 NodeRef.burnIn,
       Event.setInput NodeRef.output 0 NodeRef.scale] := by
  constructor
  · simp [render_movie_in_nuke, tryBody]
  · simp [render_movie_in_nuke, tryBody, burnTrace, scaleTrace, outputTrace,
      List.filter_append, isSetInput,
      hookKnobEvents_filter_eq_nil env.wn_settings isSetInput (fun _ _ => rfl)]
    split_ifs <;> simp [List.filter_cons, isSetInput]

/-- C2: the render happens through exactly one executeMultiple call,
applied to the single Write output node, only on the run where the output
node was created (the non-exceptional run); a run that raises inside the
try block performs no execution call at all. -/
theorem c2_single_execute_call (env : Env) (path output_path : String)
    (width height : Int) (ff lf : Int) (version : Nat) (name cs : String) :
    (render_movie_in_nuke env path output_path width height ff lf version name
      cs).filter isExecute =
      [Event.executeMultiple [NodeRef.output] [(ff - 1, lf, 1)]
        [env.views.headI]] ∧
    (∀ k, (render_movie_in_nuke_raising env path output_path width height ff lf
      version name cs k).filter isExecute = []) ∧
    Event.createWrite (lookupKnob env.wn_settings "file_type") ∈
      render_movie_in_nuke env path output_path width height ff lf version name
        cs := by
  refine ⟨?_, ?_, ?_⟩
  · simp [render_movie_in_nuke, List.filter_append, isExecute,
      tryBody_filter_isExecute]
  · intro k
    have h := tryBody_filter_isExecute env path output_path width height ff lf
      version name cs
    rw [List.filter_eq_nil_iff] at h
    have ht : (List.take k (tryBody env path output_path width height ff lf
        version name cs)).filter isExecute = [] := by
      rw [List.filter_eq_nil_iff]
      intro e he
      exact h e ((List.take_sublist k _).subset he)
    simp only [render_movie_in_nuke_raising, List.filter_append, ht]
    rfl
  · simp [render_movie_in_nuke, tryBody, outputTrace]

/-- C3: for every version number and padding setting, the version string
is the letter v followed by the version left-padded with 0 to minimum
width pad, and it is the string used in the bottom-left burn-in label and
in the Version line of the slate. -/
theorem c3_version_string_format (env : Env) (name : String) (version : Nat)
    (ff lf : Int) :
    version_str version env.settings.version_number_padding =
      specVersionStr version env.settings.version_number_padding ∧
    Event.setKnob (NodeRef.burnSub "bottom_left_text") "message"
      (KVal.str (version_label env version)) ∈
        burnTrace env name version ff lf ∧
    Event.setKnob (NodeRef.burnSub "slate_info") "message"
      (KVal.str (slate_str env name version ff lf)) ∈
        burnTrace env name version ff lf ∧
    (∃ pre, version_label env version =
      pre ++ specVersionStr version env.settings.version_number_padding) ∧
    (∃ pre post, slate_str env name version ff lf =
      pre ++ "Version: " ++
        specVersionStr version env.settings.version_number_padding ++ "\n" ++
        post) := by
  refine ⟨version_str_eq_spec _ _, by simp [burnTrace], by simp [burnTrace],
    ?_, ?_⟩
  · unfold version_label
    rw [version_str_eq_spec]
    rcases env.ctx.task with _ | t
    · rcases env.ctx.step with _ | s
      · exact ⟨"", by simp⟩
      · exact ⟨s ++ ", ", by simp [String.append_assoc]⟩
    · exact ⟨t ++ ", ", by simp [String.append_assoc]⟩
  · unfold slate_str
    rw [version_str_eq_spec]
    refine ⟨"Project: " ++ env.ctx.project_name ++ "\n" ++
      (env.ctx.entity_type ++ ": " ++ env.ctx.entity_name ++ "\n") ++
      ("Name: " ++ pyCapitalize name ++ "\n"),
      (match env.ctx.task with
       | some t => "Task: " ++ t ++ "\n"
       | none =>
         match env.ctx.step with
         | some s => "Step: " ++ s ++ "\n"
         | none => "") ++
      ("Frames: " ++ toString ff ++ " - " ++ toString lf ++ "\n"), ?_⟩
    simp only [String.append_assoc]

/-- C4: the slate message is exactly the concatenation of project line,
entity line, capitalized-name line, version line, a task line when the
context has a task else a step line when it has a step, then the frames
line; the bottom-left label follows the same task-over-step precedence
with the bare version string as fallback; both strings are written to
their burn-in nodes. -/
theorem c4_slate_and_label_content (env : Env) (name : String)
    (version : Nat) (ff lf : Int) :
    slate_str env name version ff lf = specSlateStr env name version ff lf ∧
    Event.setKnob (NodeRef.burnSub "slate_info") "message"
      (KVal.str (slate_str env name version ff lf)) ∈
        burnTrace env name version ff lf ∧
    (∀ t, env.ctx.task = some t →
      version_label env version =
        t ++ ", " ++ specVersionStr version env.settings.version_number_padding) ∧
    (∀ s, env.ctx.task = none → env.ctx.step = some s →
      version_label env version =
        s ++ ", " ++ specVersionStr version env.settings.version_number_padding) ∧
    (env.ctx.task = none → env.ctx.step = none →
      version_label env version =
        specVersionStr version env.settings.version_number_padding) ∧
    Event.setKnob (NodeRef.burnSub "bottom_left_text") "message"
      (KVal.str (version_label env version)) ∈
        burnTrace env name version ff lf := by
  refine ⟨?_, by simp [burnTrace], ?_, ?_, ?_, by simp [burnTrace]⟩
  · unfold slate_str specSlateStr
    rw [version_str_eq_spec]
    rcases env.ctx.task with _ | t
    · rcases env.ctx.step with _ | s <;>
        simp only [Option.isSome_none, Option.isSome_some, Option.get_some,
          Bool.false_eq_true, not_false_eq_true, dif_neg, dif_pos,
          String.append_assoc]
    · simp only [Option.isSome_some, Option.get_some, dif_pos,
        String.append_assoc]
  · intro t ht
    unfold version_label
    rw [version_str_eq_spec, ht]
  · intro s ht hs
    unfold version_label
    rw [version_str_eq_spec, ht, hs]
  · intro ht hs
    unfold version_label
    rw [version_str_eq_spec, ht, hs]

/-- C4 witness: with the sample environment, whose context has a task
named Comp, the slate equals its specified form and the label is the task
name before the version string. -/
theorem c4_slate_and_label_content_witness :
    slate_str sampleEnv "my name" 7 1 24 =
      specSlateStr sampleEnv "my name" 7 1 24 ∧
    version_label sampleEnv 7 = "Comp" ++ ", " ++ specVersionStr 7 3 :=
  ⟨(c4_slate_and_label_content sampleEnv "my name" 7 1 24).1,
   (c4_slate_and_label_content sampleEnv "my name" 7 1 24).2.2.1 "Comp" rfl⟩

/-- C5: the knob writes on the which knob of the slate_or_burnin_chooser
node are exactly the expression clear, the animation clear and the value
set to 1, in that order, when add_slate is off, and there are none at all
when add_slate is on. -/
theorem c5_slate_chooser_knob (env : Env) (name : String) (version : Nat)
    (ff lf : Int) :
    (burnTrace env name version ff lf).filter touchesChooserWhich =
      (if env.settings.add_slate then []
       else
         [Event.setExpression (NodeRef.burnSub "slate_or_burnin_chooser")
            "which" "",
          Event.clearAnimated (NodeRef.burnSub "slate_or_burnin_chooser")
            "which",
          Event.setKnob (NodeRef.burnSub "slate_or_burnin_chooser") "which"
            (KVal.int 1)]) := by
  unfold burnTrace
  rcases hs : env.settings.add_slate <;>
    rcases hb : env.settings.add_burn_ins <;>
      simp [List.filter_append, List.filter_cons, touchesChooserWhich,
        knobTarget]

/-- C6: the Reformat node is created with its seven knobs set to the
claimed values, and the trace contains a disable write on it exactly when
the resize_movie setting is off. -/
theorem c6_scale_node_knobs (env : Env) (path output_path : String)
    (width height : Int) (ff lf : Int) (version : Nat) (name cs : String) :
    Event.createReformat ∈
      render_movie_in_nuke env path output_path width height ff lf version
        name cs ∧
    (∀ kv ∈ [("type", KVal.str "to box"), ("box_width", KVal.int width),
             ("box_height", KVal.int height), ("resize", KVal.str "fit"),
             ("box_fixed", KVal.bool true), ("center", KVal.bool true),
             ("black_outside", KVal.bool true)],
      Event.setKnob NodeRef.scale kv.1 kv.2 ∈
        render_movie_in_nuke env path output_path width height ff lf version
          name cs) ∧
    (Event.setKnob NodeRef.scale "disable" (KVal.bool true) ∈
      render_movie_in_nuke env path output_path width height ff lf version
        name cs ↔ env.settings.resize_movie = false) := by
  refine ⟨by simp [render_movie_in_nuke, tryBody, scaleTrace], ?_, ?_⟩
  · intro kv hkv
    fin_cases hkv <;> simp [render_movie_in_nuke, tryBody, scaleTrace]
  · constructor
    · intro hmem
      rcases hr : env.settings.resize_movie
      · rfl
      · exfalso
        rcases hp : env.is_proxy <;>
          simp [render_movie_in_nuke, tryBody, burnTrace, scaleTrace,
            outputTrace, hookKnobEvents, List.mem_filterMap, hr, hp] at hmem
    · intro hr
      simp [render_movie_in_nuke, tryBody, hr]

/-- C7: the Write node is created with the hook file type, every other
hook knob is applied to it, and the slash-fixed output path is written to
exactly one of the file and proxy knobs, proxy in proxy mode and file
otherwise, as the final action. -/
theorem c7_output_node_setup (env : Env) (path : String)
    (hkeys : ∀ kv ∈ env.wn_settings, kv.1 ≠ "file" ∧ kv.1 ≠ "proxy") :
    (outputTrace env path).head? =
      some (Event.createWrite (lookupKnob env.wn_settings "file_type")) ∧
    (∀ kv ∈ env.wn_settings, kv.1 ≠ "file_type" →
      Event.setKnob NodeRef.output kv.1 kv.2 ∈ outputTrace env path) ∧
    (outputTrace env path).filter isPathKnobSet =
      [Event.setKnob NodeRef.output (if env.is_proxy then "proxy" else "file")
         (KVal.str (fix_path env.os_sep path))] ∧
    (outputTrace env path).getLast? =
      some (Event.setKnob NodeRef.output
        (if env.is_proxy then "proxy" else "file")
        (KVal.str (fix_path env.os_sep path))) := by
  refine ⟨rfl, ?_, ?_, ?_⟩
  · intro kv hkv hne
    have hm : Event.setKnob NodeRef.output kv.1 kv.2 ∈
        hookKnobEvents env.wn_settings := by
      unfold hookKnobEvents
      exact List.mem_filterMap.mpr ⟨kv, hkv, by simp [hne]⟩
    unfold outputTrace
    exact List.mem_cons_of_mem _ (List.mem_append_left _ hm)
  · rcases hp : env.is_proxy <;>
      simp [outputTrace, List.filter_cons, List.filter_append, isPathKnobSet,
        hp, hookKnobEvents_filter_isPathKnobSet env.wn_settings hkeys]
  · rcases hp : env.is_proxy <;> simp only [outputTrace, hp] <;>
      simp only [Bool.false_eq_true, if_false, if_true, ite_true, ite_false,
        reduceIte] <;>
      exact (List.getLast?_append_of_ne_nil
        (Event.createWrite (lookupKnob env.wn_settings "file_type") ::
          hookKnobEvents env.wn_settings) (by simp)).trans rfl

/-- C7 witness: with the sample environment, whose hook settings carry no
file or proxy key and whose proxy mode is off, the only path write in the
output-node trace is the file knob set to the output path. -/
theorem c7_output_node_setup_witness :
    (∀ kv ∈ sampleEnv.wn_settings, kv.1 ≠ "file" ∧ kv.1 ≠ "proxy") ∧
    (outputTrace sampleEnv "/out/review.mov").filter isPathKnobSet =
      [Event.setKnob NodeRef.output "file"
         (KVal.str (fix_path sampleEnv.os_sep "/out/review.mov"))] :=
  ⟨by decide,
   (c7_output_node_setup sampleEnv "/out/review.mov" (by decide)).2.2.1⟩

/-- C8: the frame range submitted to executeMultiple is first_frame minus
one to last_frame with step one, over only the first entry of
nuke.views(), while the Read node first and last knobs are set to
first_frame and last_frame themselves. -/
theorem c8_execute_frame_range_and_views (env : Env)
    (path output_path : String) (width height : Int) (ff lf : Int)
    (version : Nat) (name cs : String) :
    Event.executeMultiple [NodeRef.output] [(ff - 1, lf, 1)]
      [env.views.headI] ∈
      render_movie_in_nuke env path output_path width height ff lf version
        name cs ∧
    (∀ v rest, env.views = v :: rest → env.views.headI = v) ∧
    Event.setKnob NodeRef.read "first" (KVal.int ff) ∈
      render_movie_in_nuke env path output_path width height ff lf version
        name cs ∧
    Event.setKnob NodeRef.read "last" (KVal.int lf) ∈
      render_movie_in_nuke env path output_path width height ff lf version
        name cs := by
  refine ⟨by simp [render_movie_in_nuke], ?_, by simp [render_movie_in_nuke,
    tryBody], by simp [render_movie_in_nuke, tryBody]⟩
  intro v rest h
  rw [h]
  rfl

/-- C8 witness: with the sample environment, whose view list is the single
view main, the rendered view is main and the submitted range for frames 1
to 24 starts at frame 0. -/
theorem c8_execute_frame_range_and_views_witness :
    sampleEnv.views.headI = "main" ∧
    Event.executeMultiple [NodeRef.output] [((1 : Int) - 1, 24, 1)]
        [sampleEnv.views.headI] ∈
      render_movie_in_nuke sampleEnv "/in/seq.%04d.exr" "/out/review.mov"
        1920 1080 1 24 7 "myshot" "" :=
  ⟨(c8_execute_frame_range_and_views sampleEnv "/in/seq.%04d.exr"
      "/out/review.mov" 1920 1080 1 24 7 "myshot" "").2.1 "main" [] rfl,
   (c8_execute_frame_range_and_views sampleEnv "/in/seq.%04d.exr"
      "/out/review.mov" 1920 1080 1 24 7 "myshot" "").1⟩

/-- C9: after construction the stored logo is the empty string whenever
the slate_logo setting does not name an existing file, and in general it
is either empty or an existing file path (the filesystem oracle is
assumed indifferent to the win32 slash fix); this stored value is what is
written to the file knob of the logo node. -/
theorem c9_logo_invariant (env : Env) (name : String) (version : Nat)
    (ff lf : Int)
    (hfix : ∀ p, env.isfile (fix_path env.os_sep p) = env.isfile p) :
    (env.isfile env.settings.slate_logo = false → rendererLogo env = "") ∧
    (rendererLogo env = "" ∨ env.isfile (rendererLogo env) = true) ∧
    Event.setKnob (NodeRef.burnSub "logo") "file"
      (KVal.str (rendererLogo env)) ∈ burnTrace env name version ff lf := by
  refine ⟨?_, ?_, by simp [burnTrace]⟩
  · intro h
    unfold rendererLogo
    rcases hw : env.is_win32 <;> simp [h, fix_path]
  · unfold rendererLogo
    rcases hf : env.isfile env.settings.slate_logo <;>
        rcases hw : env.is_win32 <;>
        simp only [hf, hw, Bool.false_eq_true, if_false, if_true, ite_true,
          ite_false, reduceIte]
    all_goals first
      | trivial
      | (left
         trivial)
      | (right
         trivial)
      | (right
         rw [hfix]
         exact hf)

/-- C9 witness: with the sample environment, whose filesystem oracle
rejects every path, the stored logo is the empty string. -/
theorem c9_logo_invariant_witness :
    (∀ p, sampleEnv.isfile (fix_path sampleEnv.os_sep p) =
      sampleEnv.isfile p) ∧
    rendererLogo sampleEnv = "" :=
  ⟨fun _ => rfl,
   (c9_logo_invariant sampleEnv "myshot" 7 1 24 (fun _ => rfl)).1 rfl⟩

/-- C10: group.end() appears in the trace of every run, including every
run that raises inside the try block; on the non-exceptional run the very
last action deletes the temporary group, and a raising run never deletes
it (the exception propagates past the finally clause). -/
theorem c10_group_end_and_cleanup (env : Env) (path output_path : String)
    (width height : Int) (ff lf : Int) (version : Nat) (name cs : String) :
    (∀ k, Event.groupEnd ∈ render_movie_in_nuke_raising env path output_path
      width height ff lf version name cs k) ∧
    Event.groupEnd ∈ render_movie_in_nuke env path output_path width height
      ff lf version name cs ∧
    (render_movie_in_nuke env path output_path width height ff lf version
      name cs).getLast? = some (Event.deleteNode NodeRef.group) ∧
    (∀ k, Event.deleteNode NodeRef.group ∉ render_movie_in_nuke_raising env
      path output_path width height ff lf version name cs k) := by
  refine ⟨?_, by simp [render_movie_in_nuke], ?_, ?_⟩
  · intro k
    simp [render_movie_in_nuke_raising]
  · unfold render_movie_in_nuke
    exact (List.getLast?_append_of_ne_nil _ (by simp)).trans rfl
  · intro k
    simp only [render_movie_in_nuke_raising, List.mem_append,
      List.mem_cons, List.mem_singleton]
    rintro ((h | h) | h | h) <;> try simp_all
    exact deleteNode_not_mem_tryBody env path output_path width height ff lf
      version name cs NodeRef.group ((List.take_sublist k _).subset h)

end ReviewSubmission
